import Mathlib

/-!
Verification of the iowarp-core build orchestrator (setup.py).

The source is a setuptools build command, `CMakeBuild`, that:
  * probes the CMake toolchain once up front (`subprocess.check_output(["cmake", "--version"])`,
    mapping `OSError` to a `RuntimeError` advising to install CMake);
  * creates the scratch build directory;
  * iterates a fixed component registry in order, and for each component clones its
    repository when the source directory is absent, creates the build directory,
    then runs CMake configure / build / install, each via `subprocess.check_call`
    (which raises `CalledProcessError` on a nonzero exit, aborting the run).

We embed this as a deterministic state-passing program over an explicit filesystem
set and an event trace, parameterised by an environment oracle that decides the
outcome of each external process invocation.
-/

/-- One entry of `CMakeBuild.COMPONENTS` (setup.py lines 29-55): a component name,
its repository URL and its component-specific CMake flags. -/
structure ComponentSpec where
  name : String
  repo : String
  cmake_args : List String
deriving DecidableEq, Repr

/-- Registry entry 0 of `CMakeBuild.COMPONENTS` (setup.py lines 30-39). -/
def ctpComp : ComponentSpec :=
  { name := "context-transport-primitives"
  , repo := "https://github.com/iowarp/context-transport-primitives"
  , cmake_args := ["-DHSHM_ENABLE_CUDA=OFF", "-DHSHM_ENABLE_ROCM=OFF",
                   "-DHSHM_ENABLE_MPI=OFF", "-DHSHM_ENABLE_ZMQ=OFF"] }

/-- Registry entry 1 of `CMakeBuild.COMPONENTS` (setup.py lines 40-44). -/
def runtimeComp : ComponentSpec :=
  { name := "runtime", repo := "https://github.com/iowarp/runtime", cmake_args := [] }

/-- Registry entry 2 of `CMakeBuild.COMPONENTS` (setup.py lines 45-49). -/
def cteComp : ComponentSpec :=
  { name := "context-transfer-engine"
  , repo := "https://github.com/iowarp/context-transfer-engine", cmake_args := [] }

/-- Registry entry 3 of `CMakeBuild.COMPONENTS` (setup.py lines 50-54). -/
def caeComp : ComponentSpec :=
  { name := "context-assimilation-engine"
  , repo := "https://github.com/iowarp/context-assimilation-engine", cmake_args := [] }

/-- The ordered component registry `CMakeBuild.COMPONENTS` (setup.py lines 29-55). -/
def COMPONENTS : List ComponentSpec := [ctpComp, runtimeComp, cteComp, caeComp]

/-- Outcome of launching one external process: it ran and exited 0 (with some
standard output), it ran and exited with a nonzero code, or it could not be
started at all (the Python-level `OSError`). -/
inductive ProcResult
  | ok (out : String)
  | exit (code : Int) (out : String)
  | notFound
deriving DecidableEq, Repr

/-- Environment oracle: the outcome of invoking a command line in a working
directory (`none` = the process's inherited working directory). -/
def Env : Type := List String → Option String → ProcResult

/-- Observable side effects of the build run: a `subprocess.check_output` call,
a `Path.mkdir(parents=True, exist_ok=True)` call, and a `subprocess.check_call`
with its working directory. -/
inductive Event
  | checkOutput (cmd : List String)
  | mkdir (path : String)
  | checkCall (cmd : List String) (cwd : Option String)
deriving DecidableEq, Repr

/-- The Python exceptions the script can raise: the `RuntimeError` of
`CMakeBuild.run` (setup.py lines 62-65), `subprocess.CalledProcessError`
(carrying the exit status, the command, and the captured output — `None`
for `check_call`), and an uncaught `OSError` from a binary that cannot be
started. -/
inductive PyError
  | runtimeError (msg : String)
  | calledProcessError (returncode : Int) (cmd : List String) (output : Option String)
  | osError (cmd : List String)
deriving DecidableEq, Repr

/-- Filesystem-and-trace state threaded through the run: `fs` is the set of
existing directories (as a list of paths), `trace` the ordered log of external
effects. -/
structure St where
  fs : List String
  trace : List Event
deriving DecidableEq, Repr

/-- The run-level inputs the script reads: `self.build_temp` (the scratch work
root), `sys.prefix` (the install target), `self.build_lib`, `sys.platform`,
`self.parallel` (the user's parallelism override, `None` when unset), and
`multiprocessing.cpu_count()`. -/
structure Ctx where
  buildTemp : String
  sysPrefix : String
  buildLib : String
  platform : String
  parallel : Option Nat
  cpuCount : Nat
deriving DecidableEq, Repr

/-- `a / b` on `pathlib.Path` values. -/
def pathJoin (a b : String) : String := a ++ "/" ++ b

/-- `source_dir = build_temp / name` (setup.py line 86). -/
def sourceDir (ctx : Ctx) (name : String) : String := pathJoin ctx.buildTemp name

/-- `build_dir = build_temp / f"{name}-build"` (setup.py line 87). -/
def buildDir (ctx : Ctx) (name : String) : String := pathJoin ctx.buildTemp (name ++ "-build")

/-- `install_prefix = Path(sys.prefix).absolute()` (setup.py line 88): a value of
the run context only, independent of the component. -/
def installPrefix (ctx : Ctx) : String := ctx.sysPrefix

/-- The clone invocation `["git", "clone", repo, str(source_dir)]` (setup.py line 93). -/
def cloneCmd (ctx : Ctx) (comp : ComponentSpec) : List String :=
  ["git", "clone", comp.repo, sourceDir ctx comp.name]

/-- Python's `str.startswith`, on the character lists of the strings. -/
def pyStartsWith (s pre : String) : Bool := pre.data.isPrefixOf s.data

/-- The configure invocation (setup.py lines 101-113): the fixed shared defaults,
then `cmake_args`, then — on Windows only — the library-output-directory flag. -/
def cmakeConfigureArgs (ctx : Ctx) (comp : ComponentSpec) : List String :=
  ["cmake", sourceDir ctx comp.name,
   "-DCMAKE_INSTALL_PREFIX=" ++ installPrefix ctx,
   "-DCMAKE_BUILD_TYPE=Release",
   "-DBUILD_SHARED_LIBS=ON",
   "-DBUILD_TESTING=OFF"]
  ++ comp.cmake_args
  ++ (if pyStartsWith ctx.platform "win" then
        ["-DCMAKE_LIBRARY_OUTPUT_DIRECTORY=" ++ ctx.buildLib]
      else [])

/-- The parallelism degree (setup.py lines 124-129): `self.parallel` when it is
set and truthy (a nonzero integer), else `multiprocessing.cpu_count()`. -/
def resolveParallel (ctx : Ctx) : Nat :=
  match ctx.parallel with
  | some n => if n ≠ 0 then n else ctx.cpuCount
  | none => ctx.cpuCount

/-- The build invocation (setup.py lines 121-129). -/
def cmakeBuildArgs (ctx : Ctx) : List String :=
  ["cmake", "--build", ".", "--config", "Release", "--parallel",
   toString (resolveParallel ctx)]

/-- The install invocation (setup.py line 135). -/
def cmakeInstallArgs : List String := ["cmake", "--install", "."]

/-- `subprocess.check_call(cmd, cwd=cwd)`: records the invocation, then raises
`CalledProcessError` on a nonzero exit (output is NOT captured: the exception
carries `output=None`) or `OSError` when the binary cannot be started. -/
def checkCall (env : Env) (cmd : List String) (cwd : Option String) (s : St) :
    St × Except PyError Unit :=
  let s1 : St := { s with trace := s.trace ++ [Event.checkCall cmd cwd] }
  match env cmd cwd with
  | ProcResult.ok _ => (s1, Except.ok ())
  | ProcResult.exit c _ => (s1, Except.error (PyError.calledProcessError c cmd none))
  | ProcResult.notFound => (s1, Except.error (PyError.osError cmd))

/-- `subprocess.check_output(cmd)`: as `check_call` but the exception captures
the process output. -/
def checkOutput (env : Env) (cmd : List String) (s : St) : St × Except PyError String :=
  let s1 : St := { s with trace := s.trace ++ [Event.checkOutput cmd] }
  match env cmd none with
  | ProcResult.ok out => (s1, Except.ok out)
  | ProcResult.exit c out => (s1, Except.error (PyError.calledProcessError c cmd (some out)))
  | ProcResult.notFound => (s1, Except.error (PyError.osError cmd))

/-- `Path.mkdir(parents=True, exist_ok=True)`: records the call; the directory
set gains the path when absent and is untouched when it already exists. -/
def mkdirP (p : String) (s : St) : St :=
  { fs := if p ∈ s.fs then s.fs else p :: s.fs
  , trace := s.trace ++ [Event.mkdir p] }

/-- Exception-propagating sequencing: run the continuation only when the first
step did not raise. -/
def seqE (r : St × Except PyError Unit) (f : St → St × Except PyError Unit) :
    St × Except PyError Unit :=
  match r with
  | (s, Except.ok _) => f s
  | (s, Except.error e) => (s, Except.error e)

/-- The acquire step (setup.py lines 91-95): clone the repository when the
source directory is absent, otherwise reuse the existing tree as is. -/
def acquireStage (env : Env) (ctx : Ctx) (comp : ComponentSpec) (s : St) :
    St × Except PyError Unit :=
  if sourceDir ctx comp.name ∈ s.fs then (s, Except.ok ())
  else
    match checkCall env (cloneCmd ctx comp) none s with
    | (s1, Except.ok _) => ({ s1 with fs := sourceDir ctx comp.name :: s1.fs }, Except.ok ())
    | (s1, Except.error e) => (s1, Except.error e)

/-- The configure step (setup.py lines 98-117): create the build directory,
then run the CMake configure command inside it. -/
def configureStage (env : Env) (ctx : Ctx) (comp : ComponentSpec) (s : St) :
    St × Except PyError Unit :=
  checkCall env (cmakeConfigureArgs ctx comp) (some (buildDir ctx comp.name))
    (mkdirP (buildDir ctx comp.name) s)

/-- The compile step (setup.py lines 120-131). -/
def compileStage (env : Env) (ctx : Ctx) (comp : ComponentSpec) (s : St) :
    St × Except PyError Unit :=
  checkCall env (cmakeBuildArgs ctx) (some (buildDir ctx comp.name)) s

/-- The install step (setup.py lines 134-136). -/
def installStage (env : Env) (ctx : Ctx) (comp : ComponentSpec) (s : St) :
    St × Except PyError Unit :=
  checkCall env cmakeInstallArgs (some (buildDir ctx comp.name)) s

/-- The configure-compile-install tail of `build_component`. -/
def postAcquire (env : Env) (ctx : Ctx) (comp : ComponentSpec) (s : St) :
    St × Except PyError Unit :=
  seqE (configureStage env ctx comp s) fun s2 =>
    seqE (compileStage env ctx comp s2) fun s3 =>
      installStage env ctx comp s3

/-- `CMakeBuild.build_component` (setup.py lines 75-138): acquire (clone when the
source directory is absent), create the build directory, configure, build,
install; the first raised exception aborts the component. -/
def buildComponent (env : Env) (ctx : Ctx) (comp : ComponentSpec) (s : St) :
    St × Except PyError Unit :=
  seqE (acquireStage env ctx comp s) fun s1 => postAcquire env ctx comp s1

/-- The component loop of `CMakeBuild.run` (setup.py lines 71-73): build each
component in order; an uncaught exception aborts the loop. -/
def runComponents (env : Env) (ctx : Ctx) : List ComponentSpec → St → St × Except PyError Unit
  | [], s => (s, Except.ok ())
  | comp :: rest, s =>
    match buildComponent env ctx comp s with
    | (s1, Except.ok _) => runComponents env ctx rest s1
    | (s1, Except.error e) => (s1, Except.error e)

/-- The message of the `RuntimeError` raised when the CMake probe hits `OSError`
(setup.py lines 62-65). -/
def cmakeMissingMsg : String :=
  "CMake must be installed to build iowarp-core. Install with: pip install cmake"

/-- The CMake version probe command (setup.py line 60). -/
def cmakeProbeCmd : List String := ["cmake", "--version"]

/-- `CMakeBuild.run` (setup.py lines 57-73): probe `cmake --version` (an
`OSError` becomes the `RuntimeError`; a `CalledProcessError` propagates as-is),
create the scratch directory, then build every component in order. -/
def run (env : Env) (ctx : Ctx) (comps : List ComponentSpec) (fs0 : List String) :
    St × Except PyError Unit :=
  match checkOutput env cmakeProbeCmd { fs := fs0, trace := [] } with
  | (s1, Except.error (PyError.osError _)) =>
      (s1, Except.error (PyError.runtimeError cmakeMissingMsg))
  | (s1, Except.error e) => (s1, Except.error e)
  | (s1, Except.ok _) =>
      runComponents env ctx comps (mkdirP ctx.buildTemp s1)

/-- A concrete run context for closed instances: no parallelism override,
4 reported cores, a non-Windows platform. -/
def ctxW : Ctx :=
  { buildTemp := "/tmp/bt", sysPrefix := "/usr", buildLib := "/lib"
  , platform := "linux", parallel := none, cpuCount := 4 }

/-- The same context on a Windows host. -/
def ctxWin : Ctx := { ctxW with platform := "win32" }

/-- The same context with an explicit (but falsy) parallelism override of 0. -/
def ctxZero : Ctx := { ctxW with parallel := some 0 }

/-- An environment where every external process succeeds. -/
def envAllOk : Env := fun _ _ => ProcResult.ok ""

/-- An environment where every git invocation fails to start (git absent)
and everything else succeeds. -/
def envGitMissing : Env := fun cmd _ =>
  if cmd.head? = some "git" then ProcResult.notFound else ProcResult.ok ""

/-- An environment where the CMake version probe cannot be started. -/
def envProbeMissing : Env := fun cmd _ =>
  if cmd = cmakeProbeCmd then ProcResult.notFound else ProcResult.ok ""

/-- An environment where the CMake version probe starts but exits 1. -/
def envProbeExit : Env := fun cmd _ =>
  if cmd = cmakeProbeCmd then ProcResult.exit 1 "probe failed" else ProcResult.ok ""

/-- An environment where every process run inside the second registry entry's
build directory exits 3, and everything else succeeds. -/
def envSecondCompFail : Env := fun _ cwd =>
  if cwd = some (buildDir ctxW runtimeComp.name) then ProcResult.exit 3 ""
  else ProcResult.ok ""

/-- An environment where only the compile (cmake --build) invocations exit 2. -/
def envBuildFail : Env := fun cmd _ =>
  if cmd.take 2 = ["cmake", "--build"] then ProcResult.exit 2 "" else ProcResult.ok ""

/-! ### Basic lemmas about the primitive effects -/

lemma checkCall_fst (env : Env) (cmd : List String) (cwd : Option String) (s : St) :
    (checkCall env cmd cwd s).1 = { s with trace := s.trace ++ [Event.checkCall cmd cwd] } := by
  unfold checkCall
  cases env cmd cwd <;> rfl

lemma checkCall_error_shape (env : Env) (cmd : List String) (cwd : Option String) (s : St)
    (e : PyError) (h : (checkCall env cmd cwd s).2 = Except.error e) :
    (∃ c, e = PyError.calledProcessError c cmd none) ∨ e = PyError.osError cmd := by
  unfold checkCall at h
  cases henv : env cmd cwd <;> simp [henv] at h
  · exact Or.inl ⟨_, h.symm⟩
  · exact Or.inr h.symm

lemma seqE_error (r : St × Except PyError Unit) (f : St → St × Except PyError Unit)
    (e : PyError) (h : (seqE r f).2 = Except.error e) :
    r.2 = Except.error e ∨ ((f r.1).2 = Except.error e) := by
  unfold seqE at h
  rcases r with ⟨s, r2⟩
  cases r2 with
  | ok _ => exact Or.inr h
  | error e1 => simp_all

lemma seqE_fst (r : St × Except PyError Unit) (f : St → St × Except PyError Unit) :
    (seqE r f).1 = r.1 ∨ ((seqE r f).1 = (f r.1).1 ∧ r.2 = Except.ok ()) := by
  unfold seqE
  rcases r with ⟨s, r2⟩
  cases r2 with
  | ok _ => simp
  | error e1 => simp

lemma configureStage_fst (env : Env) (ctx : Ctx) (comp : ComponentSpec) (s : St) :
    (configureStage env ctx comp s).1 =
      ⟨(mkdirP (buildDir ctx comp.name) s).fs,
       s.trace ++
          [Event.mkdir (buildDir ctx comp.name),
           Event.checkCall (cmakeConfigureArgs ctx comp) (some (buildDir ctx comp.name))]⟩ := by
  unfold configureStage
  rw [checkCall_fst]
  simp [mkdirP]

lemma compileStage_fst (env : Env) (ctx : Ctx) (comp : ComponentSpec) (s : St) :
    (compileStage env ctx comp s).1 =
      ⟨s.fs, s.trace ++
          [Event.checkCall (cmakeBuildArgs ctx) (some (buildDir ctx comp.name))]⟩ := by
  unfold compileStage
  rw [checkCall_fst]

lemma installStage_fst (env : Env) (ctx : Ctx) (comp : ComponentSpec) (s : St) :
    (installStage env ctx comp s).1 =
      ⟨s.fs, s.trace ++
          [Event.checkCall cmakeInstallArgs (some (buildDir ctx comp.name))]⟩ := by
  unfold installStage
  rw [checkCall_fst]

lemma postAcquire_trace (env : Env) (ctx : Ctx) (comp : ComponentSpec) (s : St) :
    ∃ tl, (postAcquire env ctx comp s).1.trace =
      s.trace ++ (Event.mkdir (buildDir ctx comp.name) ::
        Event.checkCall (cmakeConfigureArgs ctx comp) (some (buildDir ctx comp.name)) :: tl) ∧
      ∀ e ∈ tl, e = Event.checkCall (cmakeBuildArgs ctx) (some (buildDir ctx comp.name)) ∨
                e = Event.checkCall cmakeInstallArgs (some (buildDir ctx comp.name)) := by
  unfold postAcquire
  rcases hc : configureStage env ctx comp s with ⟨s2, r2⟩
  have h2 : s2 = ⟨(mkdirP (buildDir ctx comp.name) s).fs,
      s.trace ++
        [Event.mkdir (buildDir ctx comp.name),
         Event.checkCall (cmakeConfigureArgs ctx comp) (some (buildDir ctx comp.name))]⟩ := by
    have h0 := configureStage_fst env ctx comp s
    rw [hc] at h0
    exact h0
  cases r2 with
  | error e =>
      refine ⟨[], ?_, by simp⟩
      simp [seqE, h2]
  | ok _ =>
      rcases hcm : compileStage env ctx comp s2 with ⟨s3, r3⟩
      have h3 : s3 = ⟨s2.fs, s2.trace ++
          [Event.checkCall (cmakeBuildArgs ctx) (some (buildDir ctx comp.name))]⟩ := by
        have h0 := compileStage_fst env ctx comp s2
        rw [hcm] at h0
        exact h0
      cases r3 with
      | error e =>
          refine ⟨[Event.checkCall (cmakeBuildArgs ctx) (some (buildDir ctx comp.name))],
            ?_, by simp⟩
          simp only [seqE]
          rw [hcm]
          simp [h3, h2]
      | ok _ =>
          refine ⟨[Event.checkCall (cmakeBuildArgs ctx) (some (buildDir ctx comp.name)),
                   Event.checkCall cmakeInstallArgs (some (buildDir ctx comp.name))],
            ?_, by simp⟩
          simp only [seqE]
          rw [hcm]
          simp [installStage_fst, h3, h2]

lemma postAcquire_fst_fs (env : Env) (ctx : Ctx) (comp : ComponentSpec) (s : St) :
    (postAcquire env ctx comp s).1.fs = (mkdirP (buildDir ctx comp.name) s).fs := by
  unfold postAcquire
  rcases hc : configureStage env ctx comp s with ⟨s2, r2⟩
  have h2 : s2 = ⟨(mkdirP (buildDir ctx comp.name) s).fs,
      s.trace ++
        [Event.mkdir (buildDir ctx comp.name),
         Event.checkCall (cmakeConfigureArgs ctx comp) (some (buildDir ctx comp.name))]⟩ := by
    have h0 := configureStage_fst env ctx comp s
    rw [hc] at h0
    exact h0
  cases r2 with
  | error e =>
      simp [seqE, h2]
  | ok _ =>
      rcases hcm : compileStage env ctx comp s2 with ⟨s3, r3⟩
      have h3 : s3 = ⟨s2.fs, s2.trace ++
          [Event.checkCall (cmakeBuildArgs ctx) (some (buildDir ctx comp.name))]⟩ := by
        have h0 := compileStage_fst env ctx comp s2
        rw [hcm] at h0
        exact h0
      cases r3 with
      | error e =>
          simp only [seqE]
          rw [hcm]
          simp [h3, h2]
      | ok _ =>
          simp only [seqE]
          rw [hcm]
          simp [installStage_fst, h3, h2]

lemma acquireStage_mem (env : Env) (ctx : Ctx) (comp : ComponentSpec) (s : St)
    (h : sourceDir ctx comp.name ∈ s.fs) :
    acquireStage env ctx comp s = (s, Except.ok ()) := by
  unfold acquireStage
  simp [h]

/-- Every event `build_component` appends to the trace is one of its five
external effects; when the source directory already exists the clone call is
not among them, and when it is absent the clone call comes first. -/
lemma buildComponent_trace_shape (env : Env) (ctx : Ctx) (comp : ComponentSpec) (s : St) :
    ∃ tl, (buildComponent env ctx comp s).1.trace = s.trace ++ tl ∧
      (∀ e ∈ tl, e = Event.checkCall (cloneCmd ctx comp) none ∨
        e = Event.mkdir (buildDir ctx comp.name) ∨
        e = Event.checkCall (cmakeConfigureArgs ctx comp) (some (buildDir ctx comp.name)) ∨
        e = Event.checkCall (cmakeBuildArgs ctx) (some (buildDir ctx comp.name)) ∨
        e = Event.checkCall cmakeInstallArgs (some (buildDir ctx comp.name))) ∧
      (sourceDir ctx comp.name ∈ s.fs → Event.checkCall (cloneCmd ctx comp) none ∉ tl) ∧
      (sourceDir ctx comp.name ∉ s.fs →
        tl.head? = some (Event.checkCall (cloneCmd ctx comp) none)) := by
  unfold buildComponent
  by_cases h : sourceDir ctx comp.name ∈ s.fs
  · rw [acquireStage_mem env ctx comp s h]
    rcases postAcquire_trace env ctx comp s with ⟨tl, htr, hmem⟩
    refine ⟨Event.mkdir (buildDir ctx comp.name) ::
      Event.checkCall (cmakeConfigureArgs ctx comp) (some (buildDir ctx comp.name)) :: tl,
      ?_, ?_, ?_, by simp [h]⟩
    · simpa [seqE] using htr
    · intro e he
      simp at he
      rcases he with he | he | he
      · simp [he]
      · simp [he]
      · rcases hmem e he with h1 | h1 <;> simp [h1]
    · intro _
      simp
      intro hbad
      rcases hmem _ hbad with h1 | h1 <;> simp at h1
  · unfold acquireStage
    rw [if_neg h]
    rcases hcc : checkCall env (cloneCmd ctx comp) none s with ⟨s1, r1⟩
    have h1 : s1 = ⟨s.fs, s.trace ++ [Event.checkCall (cloneCmd ctx comp) none]⟩ := by
      have h0 := checkCall_fst env (cloneCmd ctx comp) none s
      rw [hcc] at h0
      exact h0
    cases r1 with
    | error e =>
        refine ⟨[Event.checkCall (cloneCmd ctx comp) none], ?_, ?_, ?_, ?_⟩
        · simp [seqE, h1]
        · intro e1 he1
          simp at he1
          simp [he1]
        · intro hmem1
          exact absurd hmem1 h
        · intro _
          simp
    | ok _ =>
        rcases postAcquire_trace env ctx comp
            { s1 with fs := sourceDir ctx comp.name :: s1.fs } with ⟨tl, htr, hmem⟩
        refine ⟨Event.checkCall (cloneCmd ctx comp) none ::
          Event.mkdir (buildDir ctx comp.name) ::
          Event.checkCall (cmakeConfigureArgs ctx comp) (some (buildDir ctx comp.name)) :: tl,
          ?_, ?_, ?_, ?_⟩
        · simp only [seqE]
          rw [htr]
          simp [h1]
        · intro e1 he1
          simp at he1
          rcases he1 with he1 | he1 | he1 | he1
          · simp [he1]
          · simp [he1]
          · simp [he1]
          · rcases hmem e1 he1 with h2 | h2 <;> simp [h2]
        · intro hmem1
          exact absurd hmem1 h
        · intro _
          simp

lemma buildComponent_fst_fs_mem (env : Env) (ctx : Ctx) (comp : ComponentSpec) (s : St)
    (h : sourceDir ctx comp.name ∈ s.fs) :
    (buildComponent env ctx comp s).1.fs = (mkdirP (buildDir ctx comp.name) s).fs := by
  unfold buildComponent
  rw [acquireStage_mem env ctx comp s h]
  simpa [seqE] using postAcquire_fst_fs env ctx comp s

lemma acquireStage_error (env : Env) (ctx : Ctx) (comp : ComponentSpec) (s : St) (e : PyError)
    (h : (acquireStage env ctx comp s).2 = Except.error e) :
    (∃ c, e = PyError.calledProcessError c (cloneCmd ctx comp) none) ∨
    e = PyError.osError (cloneCmd ctx comp) := by
  unfold acquireStage at h
  by_cases hs : sourceDir ctx comp.name ∈ s.fs
  · rw [if_pos hs] at h
    simp at h
  · rw [if_neg hs] at h
    rcases hcc : checkCall env (cloneCmd ctx comp) none s with ⟨s1, r1⟩
    rw [hcc] at h
    cases r1 with
    | ok _ => simp at h
    | error e1 =>
        simp at h
        subst h
        exact checkCall_error_shape env _ none s e1 (by rw [hcc])

lemma postAcquire_error (env : Env) (ctx : Ctx) (comp : ComponentSpec) (s : St) (e : PyError)
    (h : (postAcquire env ctx comp s).2 = Except.error e) :
    (∃ c, e = PyError.calledProcessError c (cmakeConfigureArgs ctx comp) none) ∨
    e = PyError.osError (cmakeConfigureArgs ctx comp) ∨
    (∃ c, e = PyError.calledProcessError c (cmakeBuildArgs ctx) none) ∨
    e = PyError.osError (cmakeBuildArgs ctx) ∨
    (∃ c, e = PyError.calledProcessError c cmakeInstallArgs none) ∨
    e = PyError.osError cmakeInstallArgs := by
  unfold postAcquire at h
  rcases seqE_error _ _ _ h with h1 | h1
  · unfold configureStage at h1
    rcases checkCall_error_shape _ _ _ _ _ h1 with h2 | h2
    · exact Or.inl h2
    · exact Or.inr (Or.inl h2)
  · rcases seqE_error _ _ _ h1 with h2 | h2
    · unfold compileStage at h2
      rcases checkCall_error_shape _ _ _ _ _ h2 with h3 | h3
      · exact Or.inr (Or.inr (Or.inl h3))
      · exact Or.inr (Or.inr (Or.inr (Or.inl h3)))
    · unfold installStage at h2
      rcases checkCall_error_shape _ _ _ _ _ h2 with h3 | h3
      · exact Or.inr (Or.inr (Or.inr (Or.inr (Or.inl h3))))
      · exact Or.inr (Or.inr (Or.inr (Or.inr (Or.inr h3))))

/-- Every exception `build_component` raises is a `CalledProcessError` with no
captured output, or an `OSError`, for one of its four external commands. -/
lemma buildComponent_error_shape (env : Env) (ctx : Ctx) (comp : ComponentSpec) (s : St)
    (e : PyError) (h : (buildComponent env ctx comp s).2 = Except.error e) :
    (∃ c, e = PyError.calledProcessError c (cloneCmd ctx comp) none) ∨
    e = PyError.osError (cloneCmd ctx comp) ∨
    (∃ c, e = PyError.calledProcessError c (cmakeConfigureArgs ctx comp) none) ∨
    e = PyError.osError (cmakeConfigureArgs ctx comp) ∨
    (∃ c, e = PyError.calledProcessError c (cmakeBuildArgs ctx) none) ∨
    e = PyError.osError (cmakeBuildArgs ctx) ∨
    (∃ c, e = PyError.calledProcessError c cmakeInstallArgs none) ∨
    e = PyError.osError cmakeInstallArgs := by
  unfold buildComponent at h
  rcases seqE_error _ _ _ h with h1 | h1
  · rcases acquireStage_error _ _ _ _ _ h1 with h2 | h2
    · exact Or.inl h2
    · exact Or.inr (Or.inl h2)
  · rcases postAcquire_error _ _ _ _ _ h1 with h2 | h2 | h2 | h2 | h2 | h2
    · exact Or.inr (Or.inr (Or.inl h2))
    · exact Or.inr (Or.inr (Or.inr (Or.inl h2)))
    · exact Or.inr (Or.inr (Or.inr (Or.inr (Or.inl h2))))
    · exact Or.inr (Or.inr (Or.inr (Or.inr (Or.inr (Or.inl h2)))))
    · exact Or.inr (Or.inr (Or.inr (Or.inr (Or.inr (Or.inr (Or.inl h2))))))
    · exact Or.inr (Or.inr (Or.inr (Or.inr (Or.inr (Or.inr (Or.inr h2))))))

lemma buildComponent_no_runtimeError (env : Env) (ctx : Ctx) (comp : ComponentSpec)
    (s : St) (m : String) :
    (buildComponent env ctx comp s).2 ≠ Except.error (PyError.runtimeError m) := by
  intro h
  rcases buildComponent_error_shape env ctx comp s _ h with
    ⟨c, h1⟩ | h1 | ⟨c, h1⟩ | h1 | ⟨c, h1⟩ | h1 | ⟨c, h1⟩ | h1 <;> exact PyError.noConfusion h1

lemma runComponents_cons_ok (env : Env) (ctx : Ctx) (c : ComponentSpec)
    (comps : List ComponentSpec) (s s1 : St)
    (hb : buildComponent env ctx c s = (s1, Except.ok ())) :
    runComponents env ctx (c :: comps) s = runComponents env ctx comps s1 := by
  conv_lhs => unfold runComponents
  rw [hb]

lemma runComponents_cons_error (env : Env) (ctx : Ctx) (c : ComponentSpec)
    (comps : List ComponentSpec) (s s1 : St) (e : PyError)
    (hb : buildComponent env ctx c s = (s1, Except.error e)) :
    runComponents env ctx (c :: comps) s = (s1, Except.error e) := by
  conv_lhs => unfold runComponents
  rw [hb]

lemma runComponents_no_runtimeError (env : Env) (ctx : Ctx) :
    ∀ (comps : List ComponentSpec) (s : St) (m : String),
      (runComponents env ctx comps s).2 ≠ Except.error (PyError.runtimeError m) := by
  intro comps
  induction comps with
  | nil =>
      intro s m h
      simp [runComponents] at h
  | cons c rest ih =>
      intro s m h
      rcases hb : buildComponent env ctx c s with ⟨s1, r1⟩
      cases r1 with
      | ok u =>
          cases u
          rw [runComponents_cons_ok env ctx c rest s s1 hb] at h
          exact ih s1 m h
      | error e =>
          rw [runComponents_cons_error env ctx c rest s s1 e hb] at h
          simp at h
          apply buildComponent_no_runtimeError env ctx c s m
          rw [hb, h]
  
lemma runComponents_trace_shape (env : Env) (ctx : Ctx) :
    ∀ (comps : List ComponentSpec) (s : St),
      ∃ tl, (runComponents env ctx comps s).1.trace = s.trace ++ tl ∧
        ∀ cmd, Event.checkOutput cmd ∉ tl := by
  intro comps
  induction comps with
  | nil =>
      intro s
      exact ⟨[], by simp [runComponents], by simp⟩
  | cons c rest ih =>
      intro s
      rcases hb : buildComponent env ctx c s with ⟨s1, r1⟩
      rcases buildComponent_trace_shape env ctx c s with ⟨tl1, htr1, hmem1, _, _⟩
      rw [hb] at htr1
      cases r1 with
      | error e =>
          rw [runComponents_cons_error env ctx c rest s s1 e hb]
          refine ⟨tl1, htr1, ?_⟩
          intro cmd hbad
          rcases hmem1 _ hbad with h1 | h1 | h1 | h1 | h1 <;> cases h1
      | ok u =>
          cases u
          rw [runComponents_cons_ok env ctx c rest s s1 hb]
          rcases ih s1 with ⟨tl2, htr2, hmem2⟩
          refine ⟨tl1 ++ tl2, ?_, ?_⟩
          · rw [htr2, htr1, List.append_assoc]
          · intro cmd hbad
            rcases List.mem_append.mp hbad with hb1 | hb2
            · rcases hmem1 _ hb1 with h1 | h1 | h1 | h1 | h1 <;> cases h1
            · exact hmem2 cmd hb2

lemma runComponents_error_decomp (env : Env) (ctx : Ctx) :
    ∀ (comps : List ComponentSpec) (s : St) (e : PyError),
      (runComponents env ctx comps s).2 = Except.error e →
      ∃ i, ∃ hi : i < comps.length,
        (runComponents env ctx (comps.take i) s).2 = Except.ok () ∧
        runComponents env ctx comps s =
          buildComponent env ctx (comps.get ⟨i, hi⟩)
            (runComponents env ctx (comps.take i) s).1 := by
  intro comps
  induction comps with
  | nil =>
      intro s e h
      simp [runComponents] at h
  | cons c rest ih =>
      intro s e h
      rcases hb : buildComponent env ctx c s with ⟨s1, r1⟩
      cases r1 with
      | error e1 =>
          refine ⟨0, by simp, by simp [runComponents], ?_⟩
          rw [runComponents_cons_error env ctx c rest s s1 e1 hb]
          simp [runComponents, hb]
      | ok u =>
          cases u
          rw [runComponents_cons_ok env ctx c rest s s1 hb] at h
          rcases ih s1 e h with ⟨i, hi, h1, h2⟩
          refine ⟨i + 1, by simpa using Nat.succ_lt_succ hi, ?_, ?_⟩
          · rw [List.take_succ_cons, runComponents_cons_ok env ctx c _ s s1 hb]
            exact h1
          · rw [runComponents_cons_ok env ctx c rest s s1 hb, h2]
            congr 1
            · rw [List.take_succ_cons, runComponents_cons_ok env ctx c _ s s1 hb]

lemma runComponents_ok_all (env : Env) (ctx : Ctx) :
    ∀ (comps : List ComponentSpec) (s : St),
      (runComponents env ctx comps s).2 = Except.ok () →
      ∀ i, ∀ hi : i < comps.length,
        (buildComponent env ctx (comps.get ⟨i, hi⟩)
          (runComponents env ctx (comps.take i) s).1).2 = Except.ok () := by
  intro comps
  induction comps with
  | nil =>
      intro s h i hi
      simp at hi
  | cons c rest ih =>
      intro s h i hi
      rcases hb : buildComponent env ctx c s with ⟨s1, r1⟩
      cases r1 with
      | error e =>
          rw [runComponents_cons_error env ctx c rest s s1 e hb] at h
          simp at h
      | ok u =>
          cases u
          rw [runComponents_cons_ok env ctx c rest s s1 hb] at h
          cases i with
          | zero =>
              simp [runComponents]
              rw [hb]
          | succ j =>
              have hj : j < rest.length := Nat.lt_of_succ_lt_succ hi
              have := ih s1 h j hj
              rw [List.take_succ_cons, runComponents_cons_ok env ctx c _ s s1 hb]
              simpa using this

lemma checkOutput_fst (env : Env) (cmd : List String) (s : St) :
    (checkOutput env cmd s).1 = { s with trace := s.trace ++ [Event.checkOutput cmd] } := by
  unfold checkOutput
  cases env cmd none <;> rfl

lemma run_probe_ok (env : Env) (ctx : Ctx) (comps : List ComponentSpec) (fs0 : List String)
    (out : String) (henv : env cmakeProbeCmd none = ProcResult.ok out) :
    run env ctx comps fs0 =
      runComponents env ctx comps
        (mkdirP ctx.buildTemp ⟨fs0, [Event.checkOutput cmakeProbeCmd]⟩) := by
  unfold run checkOutput
  simp [henv]

lemma run_probe_exit (env : Env) (ctx : Ctx) (comps : List ComponentSpec) (fs0 : List String)
    (c : Int) (out : String) (henv : env cmakeProbeCmd none = ProcResult.exit c out) :
    run env ctx comps fs0 =
      (⟨fs0, [Event.checkOutput cmakeProbeCmd]⟩,
       Except.error (PyError.calledProcessError c cmakeProbeCmd (some out))) := by
  unfold run checkOutput
  simp [henv]

lemma run_probe_notFound (env : Env) (ctx : Ctx) (comps : List ComponentSpec)
    (fs0 : List String) (henv : env cmakeProbeCmd none = ProcResult.notFound) :
    run env ctx comps fs0 =
      (⟨fs0, [Event.checkOutput cmakeProbeCmd]⟩,
       Except.error (PyError.runtimeError cmakeMissingMsg)) := by
  unfold run checkOutput
  simp [henv]

/-! ### Claim theorems -/

/-- C1: fail-fast execution. For every registry, the component loop of
`CMakeBuild.run` processes components strictly in registry order: if the run
fails, there is an index i whose prefix 0..i-1 succeeded and whose component i's
pipeline produced the whole run's final state and error, so no stage of any
later component was ever invoked; and if the run succeeds, every component's
pipeline succeeded at its place in the sequence. -/
theorem c1_fail_fast (env : Env) (ctx : Ctx) (comps : List ComponentSpec) (s : St) :
    (∀ e, (runComponents env ctx comps s).2 = Except.error e →
      ∃ i, ∃ hi : i < comps.length,
        (runComponents env ctx (comps.take i) s).2 = Except.ok () ∧
        runComponents env ctx comps s =
          buildComponent env ctx (comps.get ⟨i, hi⟩)
            (runComponents env ctx (comps.take i) s).1) ∧
    ((runComponents env ctx comps s).2 = Except.ok () →
      ∀ i, ∀ hi : i < comps.length,
        (buildComponent env ctx (comps.get ⟨i, hi⟩)
          (runComponents env ctx (comps.take i) s).1).2 = Except.ok ()) :=
  ⟨fun e h => runComponents_error_decomp env ctx comps s e h,
   fun h => runComponents_ok_all env ctx comps s h⟩

/-- Witness for C1: under an environment where every process launched in the
second component's build directory exits 3, the run fails at index 1 after a
successful prefix; under an all-success environment, component 1's pipeline
succeeds at its place. -/
theorem c1_fail_fast_witness :
    (∃ i, ∃ hi : i < COMPONENTS.length,
      (runComponents envSecondCompFail ctxW (COMPONENTS.take i) ⟨[], []⟩).2 = Except.ok () ∧
      runComponents envSecondCompFail ctxW COMPONENTS ⟨[], []⟩ =
        buildComponent envSecondCompFail ctxW (COMPONENTS.get ⟨i, hi⟩)
          (runComponents envSecondCompFail ctxW (COMPONENTS.take i) ⟨[], []⟩).1) ∧
    (buildComponent envAllOk ctxW (COMPONENTS.get ⟨1, by decide⟩)
      (runComponents envAllOk ctxW (COMPONENTS.take 1) ⟨[], []⟩).1).2 = Except.ok () :=
  ⟨(c1_fail_fast envSecondCompFail ctxW COMPONENTS ⟨[], []⟩).1
      (PyError.calledProcessError 3 (cmakeConfigureArgs ctxW runtimeComp) none) (by rfl),
   (c1_fail_fast envAllOk ctxW COMPONENTS ⟨[], []⟩).2 (by rfl) 1 (by decide)⟩

/-- C2: acquisition is idempotent. For every component, the clone command is
invoked if and only if the source directory is absent; every version-control
(git-headed) invocation during the component build is exactly that clone, run
only when the source directory was absent; and when the source directory
already exists the filesystem is unchanged except possibly for the creation of
the build directory. -/
theorem c2_acquire_idempotent (env : Env) (ctx : Ctx) (comp : ComponentSpec)
    (fs : List String) :
    (Event.checkCall (cloneCmd ctx comp) none ∈
        (buildComponent env ctx comp ⟨fs, []⟩).1.trace ↔
      sourceDir ctx comp.name ∉ fs) ∧
    (∀ cmd w, Event.checkCall cmd w ∈ (buildComponent env ctx comp ⟨fs, []⟩).1.trace →
      cmd.head? = some "git" →
      cmd = cloneCmd ctx comp ∧ w = none ∧ sourceDir ctx comp.name ∉ fs) ∧
    (sourceDir ctx comp.name ∈ fs →
      (buildComponent env ctx comp ⟨fs, []⟩).1.fs = fs ∨
      (buildComponent env ctx comp ⟨fs, []⟩).1.fs = buildDir ctx comp.name :: fs) := by
  rcases buildComponent_trace_shape env ctx comp ⟨fs, []⟩ with ⟨tl, htr, hmem, hnoclone, hfirst⟩
  simp only [List.nil_append] at htr
  refine ⟨⟨?_, ?_⟩, ?_, ?_⟩
  · intro hin hsrc
    rw [htr] at hin
    exact hnoclone hsrc hin
  · intro hnotin
    rw [htr]
    have hhd := hfirst hnotin
    cases tl with
    | nil => cases hhd
    | cons a tll =>
        simp at hhd
        simp [hhd]
  · intro cmd w hin hgit
    rw [htr] at hin
    rcases hmem _ hin with h1 | h1 | h1 | h1 | h1
    · have hcmd : cmd = cloneCmd ctx comp := by injection h1 with h2 h3
      have hw : w = none := by injection h1 with h2 h3
      refine ⟨hcmd, hw, ?_⟩
      intro hsrc
      apply hnoclone hsrc
      rw [← h1]
      exact hin
    · cases h1
    · exfalso
      injection h1 with h2 h3
      rw [h2] at hgit
      have : (cmakeConfigureArgs ctx comp).head? = some "cmake" := rfl
      rw [this] at hgit
      simp at hgit
    · exfalso
      injection h1 with h2 h3
      rw [h2] at hgit
      have : (cmakeBuildArgs ctx).head? = some "cmake" := rfl
      rw [this] at hgit
      simp at hgit
    · exfalso
      injection h1 with h2 h3
      rw [h2] at hgit
      have : cmakeInstallArgs.head? = some "cmake" := rfl
      rw [this] at hgit
      simp at hgit
  · intro hsrc
    have hfs := buildComponent_fst_fs_mem env ctx comp ⟨fs, []⟩ hsrc
    rw [hfs]
    unfold mkdirP
    by_cases hb : buildDir ctx comp.name ∈ fs
    · left
      simp [hb]
    · right
      simp [hb]

/-- Witness for C2: with the first component's source directory already on
disk, the clone is not invoked and the filesystem is unchanged except for the
build directory; with an empty filesystem the clone is invoked. -/
theorem c2_acquire_idempotent_witness :
    (Event.checkCall (cloneCmd ctxW ctpComp) none ∉
      (buildComponent envAllOk ctxW ctpComp ⟨[sourceDir ctxW ctpComp.name], []⟩).1.trace) ∧
    ((buildComponent envAllOk ctxW ctpComp ⟨[sourceDir ctxW ctpComp.name], []⟩).1.fs =
        [sourceDir ctxW ctpComp.name] ∨
     (buildComponent envAllOk ctxW ctpComp ⟨[sourceDir ctxW ctpComp.name], []⟩).1.fs =
        buildDir ctxW ctpComp.name :: [sourceDir ctxW ctpComp.name]) ∧
    (Event.checkCall (cloneCmd ctxW ctpComp) none ∈
      (buildComponent envAllOk ctxW ctpComp ⟨[], []⟩).1.trace) := by
  refine ⟨?_, ?_, ?_⟩
  · intro hin
    have h := (c2_acquire_idempotent envAllOk ctxW ctpComp [sourceDir ctxW ctpComp.name]).1.mp hin
    exact h (by decide)
  · exact (c2_acquire_idempotent envAllOk ctxW ctpComp [sourceDir ctxW ctpComp.name]).2.2
      (by decide)
  · exact (c2_acquire_idempotent envAllOk ctxW ctpComp []).1.mpr (by decide)

/-- C3 counterexample: the claim says both the build-system generator and the
version-control client are probed up front, with `ToolchainMissing` if either
is absent. In fact git is never probed: with git absent (every git invocation
fails to start) the run does not report the toolchain-missing `RuntimeError`
but dies with a raw `OSError` on the first clone, after the work root was
created and component 0 was already attempted. -/
theorem c3_probe_counterexample :
    (run envGitMissing ctxW COMPONENTS []).2 =
      Except.error (PyError.osError (cloneCmd ctxW ctpComp)) ∧
    Event.checkOutput ["git", "--version"] ∉ (run envGitMissing ctxW COMPONENTS []).1.trace ∧
    Event.checkCall (cloneCmd ctxW ctpComp) none ∈
      (run envGitMissing ctxW COMPONENTS []).1.trace := by
  refine ⟨by rfl, by decide, by decide⟩

/-- C3 (amended): the run probes only the CMake generator, first of all its
effects; if that probe cannot start, the run reports the toolchain-missing
`RuntimeError` before any directory is created or any component attempted; and
no other `check_output` probe (in particular no git version probe) is ever
issued. -/
theorem c3_probe_amended (env : Env) (ctx : Ctx) (comps : List ComponentSpec)
    (fs0 : List String) :
    ((run env ctx comps fs0).1.trace.head? = some (Event.checkOutput cmakeProbeCmd)) ∧
    (env cmakeProbeCmd none = ProcResult.notFound →
      run env ctx comps fs0 =
        (⟨fs0, [Event.checkOutput cmakeProbeCmd]⟩,
         Except.error (PyError.runtimeError cmakeMissingMsg))) ∧
    (∀ cmd, Event.checkOutput cmd ∈ (run env ctx comps fs0).1.trace →
      cmd = cmakeProbeCmd) := by
  cases henv : env cmakeProbeCmd none with
  | ok out =>
      rw [run_probe_ok env ctx comps fs0 out henv]
      rcases runComponents_trace_shape env ctx comps
          (mkdirP ctx.buildTemp ⟨fs0, [Event.checkOutput cmakeProbeCmd]⟩) with ⟨tl, htr, hmem⟩
      have htrm : (mkdirP ctx.buildTemp ⟨fs0, [Event.checkOutput cmakeProbeCmd]⟩).trace =
          [Event.checkOutput cmakeProbeCmd, Event.mkdir ctx.buildTemp] := by
        unfold mkdirP
        rfl
      rw [htrm] at htr
      refine ⟨?_, ?_, ?_⟩
      · rw [htr]
        rfl
      · intro h
        exact ProcResult.noConfusion h
      · intro cmd hin
        rw [htr] at hin
        rcases List.mem_append.mp hin with h1 | h1
        · simpa using h1
        · exact absurd h1 (hmem cmd)
  | exit c out =>
      rw [run_probe_exit env ctx comps fs0 c out henv]
      refine ⟨rfl, ?_, ?_⟩
      · intro h
        exact ProcResult.noConfusion h
      · intro cmd hin
        simp at hin
        exact hin
  | notFound =>
      rw [run_probe_notFound env ctx comps fs0 henv]
      refine ⟨rfl, fun _ => rfl, ?_⟩
      · intro cmd hin
        simp at hin
        exact hin

/-- Witness for C3 (amended): with a CMake binary that cannot be started, the
run stops at the probe with the toolchain-missing error, no directory created. -/
theorem c3_probe_amended_witness :
    run envProbeMissing ctxW COMPONENTS [] =
      (⟨[], [Event.checkOutput cmakeProbeCmd]⟩,
       Except.error (PyError.runtimeError cmakeMissingMsg)) :=
  (c3_probe_amended envProbeMissing ctxW COMPONENTS []).2.1 (by decide)

/-- C4 counterexample: the claim requires the clone to be recursive, but the
clone command invoked when the source directory is absent is a plain
`git clone <repo> <dest>` carrying neither `--recursive` nor
`--recurse-submodules`. -/
theorem c4_clone_counterexample :
    (buildComponent envAllOk ctxW ctpComp ⟨[], []⟩).1.trace.head? =
      some (Event.checkCall (cloneCmd ctxW ctpComp) none) ∧
    "--recursive" ∉ cloneCmd ctxW ctpComp ∧
    "--recurse-submodules" ∉ cloneCmd ctxW ctpComp := by
  refine ⟨by rfl, by decide, by decide⟩

/-- C4 (amended): when the source directory is absent, the Acquire stage's
first effect is the version-control invocation `git clone <sourceLocation>
<sourceDir>` with no further options: git's default full (non-shallow,
complete-history) clone, with no recursive-submodule fetch requested. -/
theorem c4_clone_full (env : Env) (ctx : Ctx) (comp : ComponentSpec)
    (fs : List String) (h : sourceDir ctx comp.name ∉ fs) :
    (buildComponent env ctx comp ⟨fs, []⟩).1.trace.head? =
      some (Event.checkCall (cloneCmd ctx comp) none) ∧
    cloneCmd ctx comp = ["git", "clone", comp.repo, sourceDir ctx comp.name] := by
  refine ⟨?_, rfl⟩
  rcases buildComponent_trace_shape env ctx comp ⟨fs, []⟩ with ⟨tl, htr, _, _, hfirst⟩
  rw [htr]
  simpa using hfirst h

/-- Witness for C4 (amended): a concrete component with an empty work tree. -/
theorem c4_clone_full_witness :
    (buildComponent envAllOk ctxW runtimeComp ⟨[], []⟩).1.trace.head? =
      some (Event.checkCall (cloneCmd ctxW runtimeComp) none) :=
  (c4_clone_full envAllOk ctxW runtimeComp [] (by decide)).1

/-- C5 counterexample: on a Windows host the component-specific `cmake_args`
are not last in the configure invocation: the library-output-directory flag is
appended after them, so they are not a suffix of the option list. -/
theorem c5_order_counterexample :
    ((buildComponent envAllOk ctxWin ctpComp
        ⟨[sourceDir ctxWin ctpComp.name], []⟩).1.trace.get? 1 =
      some (Event.checkCall (cmakeConfigureArgs ctxWin ctpComp)
        (some (buildDir ctxWin ctpComp.name)))) ∧
    ¬ ctpComp.cmake_args <:+ cmakeConfigureArgs ctxWin ctpComp ∧
    (cmakeConfigureArgs ctxWin ctpComp).getLast? =
      some ("-DCMAKE_LIBRARY_OUTPUT_DIRECTORY=" ++ ctxWin.buildLib) := by
  refine ⟨by rfl, by decide, by decide⟩

/-- C5 (amended): the configure invocation runs in the build directory right
after its creation, and its option list is the shared defaults (install
prefix, release profile, shared libraries, tests disabled), then the
component's `cmake_args`, then — only on Windows — the library-output-directory
flag; on non-Windows hosts the component options are last. -/
theorem c5_configure_order (env : Env) (ctx : Ctx) (comp : ComponentSpec)
    (fs : List String) (h : sourceDir ctx comp.name ∈ fs) :
    (∃ rest, (buildComponent env ctx comp ⟨fs, []⟩).1.trace =
      Event.mkdir (buildDir ctx comp.name) ::
      Event.checkCall (cmakeConfigureArgs ctx comp) (some (buildDir ctx comp.name)) :: rest) ∧
    cmakeConfigureArgs ctx comp =
      (["cmake", sourceDir ctx comp.name,
        "-DCMAKE_INSTALL_PREFIX=" ++ installPrefix ctx,
        "-DCMAKE_BUILD_TYPE=Release",
        "-DBUILD_SHARED_LIBS=ON",
        "-DBUILD_TESTING=OFF"] ++ comp.cmake_args) ++
      (if pyStartsWith ctx.platform "win" then
        ["-DCMAKE_LIBRARY_OUTPUT_DIRECTORY=" ++ ctx.buildLib] else []) ∧
    (pyStartsWith ctx.platform "win" = false →
      comp.cmake_args <:+ cmakeConfigureArgs ctx comp) := by
  refine ⟨?_, by simp [cmakeConfigureArgs], ?_⟩
  · unfold buildComponent
    rw [acquireStage_mem env ctx comp ⟨fs, []⟩ h]
    rcases postAcquire_trace env ctx comp ⟨fs, []⟩ with ⟨tl, htr, _⟩
    exact ⟨tl, by simpa [seqE] using htr⟩
  · intro hwin
    unfold cmakeConfigureArgs
    simp [hwin]
    exact ⟨["cmake", sourceDir ctx comp.name,
      "-DCMAKE_INSTALL_PREFIX=" ++ installPrefix ctx,
      "-DCMAKE_BUILD_TYPE=Release",
      "-DBUILD_SHARED_LIBS=ON",
      "-DBUILD_TESTING=OFF"], rfl⟩

/-- Witness for C5 (amended): on the non-Windows context the component options
are a suffix of the configure option list. -/
theorem c5_configure_order_witness :
    ctpComp.cmake_args <:+ cmakeConfigureArgs ctxW ctpComp :=
  (c5_configure_order envAllOk ctxW ctpComp [sourceDir ctxW ctpComp.name]
    (by decide)).2.2 (by decide)

/-- C6 counterexample: a compile failure for the `runtime` component raises a
`CalledProcessError` whose payload is the build command and exit status only:
the captured output is `None` (check_call captures nothing) and no element of
the carried command names the component. -/
theorem c6_error_counterexample :
    (run envBuildFail ctxW [runtimeComp] []).2 =
      Except.error (PyError.calledProcessError 2
        ["cmake", "--build", ".", "--config", "Release", "--parallel", "4"] none) ∧
    "runtime" ∉ ["cmake", "--build", ".", "--config", "Release", "--parallel", "4"] := by
  refine ⟨by rfl, by decide⟩

/-- C6 (amended): every `CalledProcessError` escaping a component build carries
the failing stage's full command line and the exit status, but never any
captured output (`output = None`); the component's name is not a field of the
error and reaches it only when it occurs inside the command's path arguments
(clone and configure), not for compile or install. -/
theorem c6_error_payload (env : Env) (ctx : Ctx) (comp : ComponentSpec) (s : St)
    (rc : Int) (cmd : List String) (out : Option String)
    (h : (buildComponent env ctx comp s).2 =
      Except.error (PyError.calledProcessError rc cmd out)) :
    out = none ∧
    (cmd = cloneCmd ctx comp ∨ cmd = cmakeConfigureArgs ctx comp ∨
     cmd = cmakeBuildArgs ctx ∨ cmd = cmakeInstallArgs) := by
  rcases buildComponent_error_shape env ctx comp s _ h with
    h1 | h1 | h1 | h1 | h1 | h1 | h1 | h1
  · rcases h1 with ⟨c, h1⟩
    injection h1 with h2 h3 h4
    exact ⟨h4, Or.inl h3⟩
  · exact PyError.noConfusion h1
  · rcases h1 with ⟨c, h1⟩
    injection h1 with h2 h3 h4
    exact ⟨h4, Or.inr (Or.inl h3)⟩
  · exact PyError.noConfusion h1
  · rcases h1 with ⟨c, h1⟩
    injection h1 with h2 h3 h4
    exact ⟨h4, Or.inr (Or.inr (Or.inl h3))⟩
  · exact PyError.noConfusion h1
  · rcases h1 with ⟨c, h1⟩
    injection h1 with h2 h3 h4
    exact ⟨h4, Or.inr (Or.inr (Or.inr h3))⟩
  · exact PyError.noConfusion h1

/-- Witness for C6 (amended): the compile-failure error of the `runtime`
component carries no output and one of the four stage commands. -/
theorem c6_error_payload_witness :
    (none : Option String) = none ∧
    (cmakeBuildArgs ctxW = cloneCmd ctxW runtimeComp ∨
     cmakeBuildArgs ctxW = cmakeConfigureArgs ctxW runtimeComp ∨
     cmakeBuildArgs ctxW = cmakeBuildArgs ctxW ∨
     cmakeBuildArgs ctxW = cmakeInstallArgs) :=
  c6_error_payload envBuildFail ctxW runtimeComp
    ⟨[sourceDir ctxW runtimeComp.name], []⟩ 2 (cmakeBuildArgs ctxW) none (by rfl)

/-- C7 counterexample: a supplied override of 0 is falsy in the source's
truthiness test, so it is not used verbatim: the resolved degree falls back to
the host core count (4), not 0. -/
theorem c7_parallel_counterexample :
    ctxZero.parallel = some 0 ∧
    resolveParallel ctxZero = 4 ∧
    resolveParallel ctxZero ≠ 0 ∧
    cmakeBuildArgs ctxZero =
      ["cmake", "--build", ".", "--config", "Release", "--parallel", "4"] := by
  refine ⟨rfl, by decide, by decide, by rfl⟩

/-- C7 (amended): a nonzero explicit override is used verbatim as the
parallelism degree; when the override is absent — or present but zero, hence
falsy — the degree is the host's reported compute-unit count; the compile
invocation passes exactly that degree to the build tool. -/
theorem c7_parallelism (ctx : Ctx) :
    (∀ n, ctx.parallel = some n → n ≠ 0 → resolveParallel ctx = n) ∧
    (ctx.parallel = none → resolveParallel ctx = ctx.cpuCount) ∧
    (ctx.parallel = some 0 → resolveParallel ctx = ctx.cpuCount) ∧
    cmakeBuildArgs ctx = ["cmake", "--build", ".", "--config", "Release"] ++
      ["--parallel", toString (resolveParallel ctx)] := by
  refine ⟨?_, ?_, ?_, rfl⟩
  · intro n hn hnz
    unfold resolveParallel
    rw [hn]
    simp [hnz]
  · intro hn
    unfold resolveParallel
    rw [hn]
  · intro hn
    unfold resolveParallel
    rw [hn]
    simp

/-- Witness for C7 (amended): a nonzero override of 7 is used verbatim; with no
override the degree is the core count. -/
theorem c7_parallelism_witness :
    resolveParallel { ctxW with parallel := some 7 } = 7 ∧
    resolveParallel ctxW = ctxW.cpuCount :=
  ⟨(c7_parallelism { ctxW with parallel := some 7 }).1 7 rfl (by decide),
   (c7_parallelism ctxW).2.1 rfl⟩

/-- C8: shared install prefix invariant. For any two components, the configure
invocation's install-prefix flag (always at position 2 of the option list) is
the very same string, `-DCMAKE_INSTALL_PREFIX=` followed by the run context's
`sys.prefix`, a value independent of the component. -/
theorem c8_install_dir_shared (ctx : Ctx) (compA compB : ComponentSpec) :
    (cmakeConfigureArgs ctx compA).get? 2 =
      some ("-DCMAKE_INSTALL_PREFIX=" ++ installPrefix ctx) ∧
    (cmakeConfigureArgs ctx compB).get? 2 =
      some ("-DCMAKE_INSTALL_PREFIX=" ++ installPrefix ctx) ∧
    installPrefix ctx = ctx.sysPrefix := by
  exact ⟨rfl, rfl, rfl⟩

/-- C9: derived path computation. Source and build directories are computed as
`workRoot/name` and `workRoot/name-build` from the component name and the work
root only (two contexts sharing a work root derive the same paths), and
directory creation is idempotent: creating an existing directory leaves the
filesystem unchanged, and after creation the directory exists. -/
theorem c9_derived_paths :
    (∀ ctx name, sourceDir ctx name = pathJoin ctx.buildTemp name ∧
       buildDir ctx name = pathJoin ctx.buildTemp (name ++ "-build")) ∧
    (∀ cA cB : Ctx, ∀ name, cA.buildTemp = cB.buildTemp →
       sourceDir cA name = sourceDir cB name ∧ buildDir cA name = buildDir cB name) ∧
    (∀ p s, p ∈ s.fs → (mkdirP p s).fs = s.fs) ∧
    (∀ p s, p ∈ (mkdirP p s).fs) := by
  refine ⟨fun ctx name => ⟨rfl, rfl⟩, fun cA cB name h => ?_, fun p s h => ?_, fun p s => ?_⟩
  · unfold sourceDir buildDir pathJoin
    rw [h]
    exact ⟨rfl, rfl⟩
  · unfold mkdirP
    simp [h]
  · unfold mkdirP
    by_cases h : p ∈ s.fs <;> simp [h]

/-- Witness for C9: re-creating an existing build directory leaves the
filesystem unchanged, and two contexts differing only in core count derive the
same source directory. -/
theorem c9_derived_paths_witness :
    (mkdirP "/w/a-build" ⟨["/w/a-build"], []⟩).fs = ["/w/a-build"] ∧
    sourceDir ctxW "a" = sourceDir { ctxW with cpuCount := 8 } "a" :=
  ⟨c9_derived_paths.2.2.1 "/w/a-build" ⟨["/w/a-build"], []⟩ (by decide),
   (c9_derived_paths.2.1 ctxW { ctxW with cpuCount := 8 } "a" rfl).1⟩

/-- C10: probe edge case. The toolchain-missing `RuntimeError` is raised if and
only if the CMake version probe fails to start (OSError); a probe that starts
but exits nonzero instead propagates the raw `CalledProcessError` — with its
captured output — and in that case too the run ends with only the probe in the
trace, before any directory is created or any component attempted. -/
theorem c10_probe_edge (env : Env) (ctx : Ctx) (comps : List ComponentSpec)
    (fs0 : List String) :
    ((run env ctx comps fs0).2 = Except.error (PyError.runtimeError cmakeMissingMsg) ↔
      env cmakeProbeCmd none = ProcResult.notFound) ∧
    (∀ c out, env cmakeProbeCmd none = ProcResult.exit c out →
      run env ctx comps fs0 =
        (⟨fs0, [Event.checkOutput cmakeProbeCmd]⟩,
         Except.error (PyError.calledProcessError c cmakeProbeCmd (some out)))) := by
  cases henv : env cmakeProbeCmd none with
  | ok out =>
      rw [run_probe_ok env ctx comps fs0 out henv]
      constructor
      · constructor
        · intro habs
          exact absurd habs (runComponents_no_runtimeError env ctx comps _ _)
        · intro habs
          exact ProcResult.noConfusion habs
      · intro c out1 habs
        exact ProcResult.noConfusion habs
  | exit c out =>
      rw [run_probe_exit env ctx comps fs0 c out henv]
      constructor
      · constructor
        · intro habs
          simp at habs
        · intro habs
          exact ProcResult.noConfusion habs
      · intro c1 out1 h1
        injection h1 with h2 h3
        rw [h2, h3]
  | notFound =>
      rw [run_probe_notFound env ctx comps fs0 henv]
      constructor
      · simp
      · intro c out habs
        exact ProcResult.noConfusion habs

/-- Witness for C10: a probe that starts but exits 1 with output propagates the
raw `CalledProcessError` carrying that exit status and output. -/
theorem c10_probe_edge_witness :
    run envProbeExit ctxW COMPONENTS [] =
      (⟨[], [Event.checkOutput cmakeProbeCmd]⟩,
       Except.error (PyError.calledProcessError 1 cmakeProbeCmd (some "probe failed"))) :=
  (c10_probe_edge envProbeExit ctxW COMPONENTS []).2 1 "probe failed" (by decide)
